import Mathlib

/-!
Verification of the psb-e-tracker core: the zoom-dependent scale/elevation
policy, the model-transform pipeline of `Bus3DModel` (the `calculateScale`
and `getModelTransform` callbacks), the camera-follow state machine of
`MapView` (`handleBusClick`, `handleInfoPanelClose`, the one-shot
`moveend` handler, `disableMapInteractions` / `enableMapInteractions`),
and the telemetry-poll update (`fetchBusLocations`, `loadBusData`).

JavaScript numbers that may be `undefined` at runtime (the `Heading`
field of a telemetry record, despite its static `number` type) are
modelled as `Option ℝ`: `none` is the missing value.  A JS arithmetic
expression applied to `undefined` yields `NaN`; we model a
possibly-NaN result as `Option ℝ` with `none` standing for `NaN`,
and the JS idiom `x || 0` (which maps `undefined` to `0`) as `jsOrZero`.
-/

/-- JS `x || 0` applied to a possibly-missing number: `undefined || 0 = 0`,
and a present number `h` gives `h` (for `h = 0` the idiom also yields `0`). -/
def jsOrZero (x : Option ℝ) : ℝ := x.getD 0

/-- The fields of a telemetry record (`BusData` of `src/services/busApi.ts`)
consumed by the core (identity, position, heading); the remaining fields of
the interface are descriptive/status data used only by presentation.
`Heading` is `Option ℝ` because the feed may omit it at runtime. -/
structure BusData where
  VehicleId : ℕ
  Longitude : ℝ
  Latitude : ℝ
  Heading : Option ℝ

/-- `calculateScale` of `Bus3DModel` (current variant): zoom-dependent model
scale, `min (max (baseScale * zoomSpeed ^ (baseZoom - zoom)) minScale) maxScale`
with `baseScale = 10`, `baseZoom = 12`, `zoomSpeed = 3`,
`[minScale, maxScale] = [0.05, 0.35]`. -/
noncomputable def calculateScale (zoom : ℝ) : ℝ :=
  let baseScale : ℝ := 10
  let baseZoom : ℝ := 12
  let zoomSpeed : ℝ := 3
  let minScale : ℝ := 0.05
  let maxScale : ℝ := 0.35
  let scaleFactor : ℝ := zoomSpeed ^ (baseZoom - zoom)
  min (max (baseScale * scaleFactor) minScale) maxScale

/-- Modelled from the spec: `clamp(x, lo, hi)` as used in the spec's formula
`scale(z) = clamp(baseScale * zoomSpeed^(baseZoom - z), minScale, maxScale)`,
for comparison with the source's `calculateScale`. -/
noncomputable def clamp (x lo hi : ℝ) : ℝ := min (max x lo) hi

/-- `zoomFactor` of `getModelTransform`: `Math.max(0, 14 - zoom)`. -/
def zoomFactor (zoom : ℝ) : ℝ := max 0 (14 - zoom)

/-- `elevationAdjustment` of `getModelTransform`: `zoomFactor * 200`. -/
def elevationAdjustment (zoom : ℝ) : ℝ := zoomFactor zoom * 200

/-- The altitude handed to `MercatorCoordinate.fromLngLat` in
`getModelTransform`: `baseElevation + elevationAdjustment` with
`baseElevation = 0`. -/
def elevationOffset (zoom : ℝ) : ℝ :=
  let baseElevation : ℝ := 0
  baseElevation + elevationAdjustment zoom

/-- The third component of `modelRotate` in `getModelTransform`:
`((bus.Heading + 25) * Math.PI) / 180`.  There is no `|| 0` default here,
so a missing heading propagates (`undefined + 25` is `NaN`), modelled as
`none`. -/
noncomputable def modelRotateZ (heading : Option ℝ) : Option ℝ :=
  heading.map (fun h => ((h + 25) * Real.pi) / 180)

/-- `headingRadians` of the earlier `Bus3DModel.tsx` variant:
`(bus.Heading || 0) * (Math.PI / 180)`. -/
noncomputable def headingRadians (heading : Option ℝ) : ℝ :=
  jsOrZero heading * (Real.pi / 180)

/-- The transform returned by `getModelTransform`.  `rotateZ` is `Option ℝ`
because the source expression is `NaN` when the heading is missing. -/
structure ModelTransform where
  translateX : ℝ
  translateY : ℝ
  translateZ : ℝ
  rotateX : ℝ
  rotateY : ℝ
  rotateZ : Option ℝ
  scale : ℝ

/-- `getModelTransform` of `Bus3DModel` (current variant).  The host map's
projection (`mapboxgl.MercatorCoordinate.fromLngLat`, giving `(x, y, z)`)
and its `meterInMercatorCoordinateUnits()` factor are external library
code (spec §6), passed here as parameters `fromLngLat` and
`meterInMercatorCoordinateUnits`. -/
noncomputable def getModelTransform
    (fromLngLat : ℝ → ℝ → ℝ → ℝ × ℝ × ℝ)
    (meterInMercatorCoordinateUnits : ℝ)
    (bus : BusData) (zoom : ℝ) : ModelTransform :=
  let coord := fromLngLat bus.Longitude bus.Latitude (elevationOffset zoom)
  { translateX := coord.1
    translateY := coord.2.1
    translateZ := coord.2.2
    rotateX := 0
    rotateY := 0
    rotateZ := modelRotateZ bus.Heading
    scale := meterInMercatorCoordinateUnits * calculateScale zoom }

lemma calculateScale_eq (zoom : ℝ) :
    calculateScale zoom = min (max (10 * (3 : ℝ) ^ ((12 : ℝ) - zoom)) 0.05) 0.35 := rfl

lemma rpow_base3_antitone {z1 z2 : ℝ} (h : z1 ≤ z2) :
    (3 : ℝ) ^ ((12 : ℝ) - z2) ≤ (3 : ℝ) ^ ((12 : ℝ) - z1) :=
  Real.rpow_le_rpow_of_exponent_le (by norm_num) (by linarith)

lemma calculateScale_antitone {z1 z2 : ℝ} (h : z1 ≤ z2) :
    calculateScale z2 ≤ calculateScale z1 := by
  rw [calculateScale_eq, calculateScale_eq]
  have hp := rpow_base3_antitone h
  have h10 : 10 * (3 : ℝ) ^ ((12 : ℝ) - z2) ≤ 10 * (3 : ℝ) ^ ((12 : ℝ) - z1) := by
    nlinarith
  exact min_le_min (max_le_max h10 le_rfl) le_rfl

lemma calculateScale_lower (z : ℝ) : 0.05 ≤ calculateScale z := by
  rw [calculateScale_eq]
  exact le_min (le_trans (le_max_right _ _) le_rfl) (by norm_num)

lemma calculateScale_upper (z : ℝ) : calculateScale z ≤ 0.35 :=
  min_le_right _ _

lemma rpow_base3_neg_three : (3 : ℝ) ^ (-3 : ℝ) = 1 / 27 := by
  rw [show (-3 : ℝ) = -((3 : ℕ) : ℝ) by norm_num]
  rw [Real.rpow_neg (by norm_num), Real.rpow_natCast]
  norm_num

lemma rpow_base3_neg_five : (3 : ℝ) ^ (-5 : ℝ) = 1 / 243 := by
  rw [show (-5 : ℝ) = -((5 : ℕ) : ℝ) by norm_num]
  rw [Real.rpow_neg (by norm_num), Real.rpow_natCast]
  norm_num

/-- C4: for every pair of zoom levels `z1 ≤ z2` the scale is monotonically
non-increasing (`scale z2 ≤ scale z1`), every scale value lies in
`[0.05, 0.35]`, and `calculateScale z` equals the spec's
`clamp (10 * 3^(12 - z)) 0.05 0.35`. -/
theorem calculateScale_monotone_bounded_clamp (z1 z2 : ℝ) (h : z1 ≤ z2) :
    calculateScale z2 ≤ calculateScale z1 ∧
    (∀ z : ℝ, 0.05 ≤ calculateScale z ∧ calculateScale z ≤ 0.35) ∧
    (∀ z : ℝ, calculateScale z = clamp (10 * (3 : ℝ) ^ ((12 : ℝ) - z)) 0.05 0.35) := by
  refine ⟨calculateScale_antitone h, fun z => ⟨calculateScale_lower z, calculateScale_upper z⟩,
    fun z => ?_⟩
  rw [calculateScale_eq]; rfl

/-- C4 witness: instance of the statement at `z1 = 12`, `z2 = 13`. -/
theorem calculateScale_monotone_bounded_clamp_witness :
    calculateScale 13 ≤ calculateScale 12 ∧
    (∀ z : ℝ, 0.05 ≤ calculateScale z ∧ calculateScale z ≤ 0.35) ∧
    (∀ z : ℝ, calculateScale z = clamp (10 * (3 : ℝ) ^ ((12 : ℝ) - z)) 0.05 0.35) :=
  calculateScale_monotone_bounded_clamp 12 13 (by norm_num)

lemma ten_mul_rpow_ge (z : ℝ) (h : z ≤ 15) :
    (0.35 : ℝ) ≤ 10 * (3 : ℝ) ^ ((12 : ℝ) - z) := by
  have h1 : (3 : ℝ) ^ (-3 : ℝ) ≤ (3 : ℝ) ^ ((12 : ℝ) - z) :=
    Real.rpow_le_rpow_of_exponent_le (by norm_num) (by linarith)
  rw [rpow_base3_neg_three] at h1
  nlinarith

lemma ten_mul_rpow_le (z : ℝ) (h : 17 ≤ z) :
    10 * (3 : ℝ) ^ ((12 : ℝ) - z) ≤ (0.05 : ℝ) := by
  have h1 : (3 : ℝ) ^ ((12 : ℝ) - z) ≤ (3 : ℝ) ^ (-5 : ℝ) :=
    Real.rpow_le_rpow_of_exponent_le (by norm_num) (by linarith)
  rw [rpow_base3_neg_five] at h1
  nlinarith

/-- C10: the clamp saturates over most of the zoom range: for `z ≤ 15` the
scale is exactly `maxScale = 0.35`, and for `z ≥ 17` it is exactly
`minScale = 0.05`; the scale varies with zoom only strictly between those
zoom bounds. -/
theorem calculateScale_saturates (z : ℝ) :
    (z ≤ 15 → calculateScale z = 0.35) ∧ (17 ≤ z → calculateScale z = 0.05) := by
  constructor
  · intro h
    rw [calculateScale_eq]
    have h1 := ten_mul_rpow_ge z h
    rw [max_eq_left (by linarith), min_eq_right (by linarith)]
  · intro h
    rw [calculateScale_eq]
    have h1 := ten_mul_rpow_le z h
    rw [max_eq_right (by linarith), min_eq_left (by norm_num)]

/-- C10 witness: instances at `z = 15` and `z = 17`. -/
theorem calculateScale_saturates_witness :
    calculateScale 15 = 0.35 ∧ calculateScale 17 = 0.05 :=
  ⟨(calculateScale_saturates 15).1 (by norm_num),
   (calculateScale_saturates 17).2 (by norm_num)⟩

/-- C5: at or above the elevation zoom threshold (14) the elevation offset
is `0`; below it the offset equals `(14 - z) * 200`, is strictly positive,
and is strictly decreasing as zoom increases toward the threshold. -/
theorem elevationOffset_spec (z : ℝ) :
    (14 ≤ z → elevationOffset z = 0) ∧
    (z < 14 → elevationOffset z = (14 - z) * 200 ∧ 0 < elevationOffset z) ∧
    (∀ z1 z2 : ℝ, z1 < z2 → z2 ≤ 14 → elevationOffset z2 < elevationOffset z1) := by
  refine ⟨fun h => ?_, fun h => ?_, fun z1 z2 h1 h2 => ?_⟩
  · simp only [elevationOffset, elevationAdjustment, zoomFactor]
    rw [max_eq_left (by linarith)]
    ring
  · simp only [elevationOffset, elevationAdjustment, zoomFactor]
    rw [max_eq_right (by linarith)]
    constructor
    · ring
    · nlinarith
  · simp only [elevationOffset, elevationAdjustment, zoomFactor]
    have hz1 : max (0 : ℝ) (14 - z1) = 14 - z1 := max_eq_right (by linarith)
    have hz2 : max (0 : ℝ) (14 - z2) < 14 - z1 := max_lt (by linarith) (by linarith)
    rw [hz1]
    nlinarith

/-- C5 witness: instances at `z = 14`, `z = 13`, and the pair `13 < 13.5`. -/
theorem elevationOffset_spec_witness :
    elevationOffset 14 = 0 ∧
    (elevationOffset 13 = (14 - 13) * 200 ∧ 0 < elevationOffset 13) ∧
    elevationOffset 13.5 < elevationOffset 13 :=
  ⟨(elevationOffset_spec 14).1 (by norm_num),
   (elevationOffset_spec 13).2.1 (by norm_num),
   (elevationOffset_spec 0).2.2 13 13.5 (by norm_num) (by norm_num)⟩

/-- C6: for a telemetry record with heading 90 degrees, the transform's
rotation about the vertical axis equals `(90 + 25) * π / 180` (the heading
is converted to radians after adding the fixed 25-degree calibration
offset), a value strictly between 2.007 and 2.008 radians. -/
theorem getModelTransform_rotateZ_heading90
    (fromLngLat : ℝ → ℝ → ℝ → ℝ × ℝ × ℝ) (meterUnits : ℝ) (zoom : ℝ) :
    (getModelTransform fromLngLat meterUnits
        ⟨7, -79.979146, 42.117963, some 90⟩ zoom).rotateZ
      = some (((90 + 25) * Real.pi) / 180) ∧
    2.007 < ((90 + 25) * Real.pi) / 180 ∧ ((90 + 25) * Real.pi) / 180 < 2.008 := by
  refine ⟨rfl, ?_, ?_⟩
  · have h := Real.pi_gt_d6
    nlinarith
  · have h := Real.pi_lt_d6
    nlinarith

/-- C6 witness: instance at a constant projection and `zoom = 18`. -/
theorem getModelTransform_rotateZ_heading90_witness :
    (getModelTransform (fun _ _ _ => (0, 0, 0)) 1
        ⟨7, -79.979146, 42.117963, some 90⟩ 18).rotateZ
      = some (((90 + 25) * Real.pi) / 180) ∧
    2.007 < ((90 + 25) * Real.pi) / 180 ∧ ((90 + 25) * Real.pi) / 180 < 2.008 :=
  getModelTransform_rotateZ_heading90 (fun _ _ _ => (0, 0, 0)) 1 18

/-- A camera pose as captured by `MapView` (`MapPosition` plus the live
camera): center (`getCenter`), `getZoom`, `getPitch`, `getBearing`. -/
structure CameraPose where
  lng : ℝ
  lat : ℝ
  zoom : ℝ
  pitch : ℝ
  bearing : ℝ

/-- The five interaction handles toggled by `MapView`:
`dragPan`, `scrollZoom`, `doubleClickZoom`, `touchZoomRotate`, `keyboard`. -/
structure InteractionState where
  dragPan : Bool
  scrollZoom : Bool
  doubleClickZoom : Bool
  touchZoomRotate : Bool
  keyboard : Bool

/-- All five interaction handles enabled. -/
def allInteractionsOn : InteractionState := ⟨true, true, true, true, true⟩

/-- All five interaction handles disabled. -/
def allInteractionsOff : InteractionState := ⟨false, false, false, false, false⟩

/-- The state of `MapView` relevant to the camera-follow logic: the live
camera, the interaction handles and navigation control, the React state
(`selectedBus`, `showInfoPanel`, `previousMapPosition`), the target of the
in-flight `flyTo` animation (if any), and the number of pending one-shot
`once('moveend', disableMapInteractions)` handlers. -/
structure MapViewState where
  camera : CameraPose
  interactions : InteractionState
  navControl : Bool
  selectedBus : Option BusData
  showInfoPanel : Bool
  previousMapPosition : Option CameraPose
  flyTarget : Option CameraPose
  moveendOnce : ℕ

/-- `disableMapInteractions` of `MapView`: disables the five handles and
removes the navigation control. -/
def disableMapInteractions (s : MapViewState) : MapViewState :=
  { s with interactions := allInteractionsOff, navControl := false }

/-- `enableMapInteractions` of `MapView`: enables the five handles and adds
the navigation control back if absent. -/
def enableMapInteractions (s : MapViewState) : MapViewState :=
  { s with interactions := allInteractionsOn, navControl := true }

/-- The `flyTo` target of `handleBusClick`: the bus position at zoom 18,
pitch 60, bearing `bus.Heading || 0`. -/
def focusPose (bus : BusData) : CameraPose :=
  { lng := bus.Longitude, lat := bus.Latitude, zoom := 18, pitch := 60,
    bearing := jsOrZero bus.Heading }

/-- `handleBusClick` of `MapView`: stores the current camera pose in
`previousMapPosition`, selects the bus, shows the info panel, starts a
`flyTo` toward the bus, and registers a one-shot `moveend` handler that
will disable map interactions. -/
def handleBusClick (s : MapViewState) (bus : BusData) : MapViewState :=
  { s with
    previousMapPosition := some s.camera
    selectedBus := some bus
    showInfoPanel := true
    flyTarget := some (focusPose bus)
    moveendOnce := s.moveendOnce + 1 }

/-- `handleInfoPanelClose` of `MapView`: hides the panel, deselects,
re-enables interactions, and, when a previous pose was saved, starts a
`flyTo` back to it and clears the saved pose.  It does not unregister any
pending one-shot `moveend` handler. -/
def handleInfoPanelClose (s : MapViewState) : MapViewState :=
  let s1 := enableMapInteractions { s with showInfoPanel := false, selectedBus := none }
  match s1.previousMapPosition with
  | some p => { s1 with flyTarget := some p, previousMapPosition := none }
  | none => s1

/-- Host-map animation scheduler advancing the camera one frame of an
in-flight `flyTo` (spec §6); the intermediate pose `p` depends on easing
and timing, so it is the event's payload.  Without an active flight the
camera does not move. -/
def animationFrame (s : MapViewState) (p : CameraPose) : MapViewState :=
  match s.flyTarget with
  | some _ => { s with camera := p }
  | none => s

/-- Fires every pending one-shot `moveend` handler; each registered handler
is `disableMapInteractions`, and `once` handlers are removed after firing. -/
def fireMoveendOnce (s : MapViewState) : MapViewState :=
  if 0 < s.moveendOnce then { disableMapInteractions s with moveendOnce := 0 } else s

/-- Completion of an in-flight `flyTo`: the camera reaches the target, the
flight ends, and the map fires `moveend`, running every pending one-shot
handler.  Without an active flight the event does nothing. -/
def flightMoveend (s : MapViewState) : MapViewState :=
  match s.flyTarget with
  | some t => fireMoveendOnce { s with camera := t, flyTarget := none }
  | none => s

/-- The Idle configuration of `MapView`: camera at pose `p`, interactions
enabled, navigation control present, nothing selected, no saved pose, no
in-flight animation, no pending `moveend` handler. -/
def idleState (p : CameraPose) : MapViewState :=
  { camera := p
    interactions := allInteractionsOn
    navControl := true
    selectedBus := none
    showInfoPanel := false
    previousMapPosition := none
    flyTarget := none
    moveendOnce := 0 }

/-- C1: from Idle at pose `p0`, selecting a bus captures `p0` as the saved
pose before the focus flight starts; when the focus flight completes, the
five interaction handles are disabled; a subsequent deselect re-enables all
interaction, issues a flight whose target is exactly `p0`, and clears the
saved pose; and when that restore flight completes the camera is exactly
`p0` with interaction still enabled. -/
theorem select_focus_deselect_restores (p0 : CameraPose) (b : BusData) :
    let s1 := handleBusClick (idleState p0) b
    let s2 := flightMoveend s1
    let s3 := handleInfoPanelClose s2
    let s4 := flightMoveend s3
    s1.previousMapPosition = some p0 ∧
    s2.interactions = allInteractionsOff ∧
    s3.interactions = allInteractionsOn ∧
    s3.flyTarget = some p0 ∧
    s3.previousMapPosition = none ∧
    s4.camera = p0 ∧
    s4.interactions = allInteractionsOn := by
  refine ⟨rfl, rfl, rfl, rfl, rfl, rfl, rfl⟩

/-- C2 (code evaluated at the failing trace): a deselect issued while the
focus flight is still in flight does not unregister the pending one-shot
`moveend` handler, so the handler fires when the restore flight completes:
the system ends in the Idle configuration (nothing selected, no flight)
with all five interaction handles disabled and the navigation control
removed — contradicting the claimed invariant that interaction is enabled
in every state except Focused. -/
theorem deselect_during_focus_ends_idle_disabled (p0 : CameraPose) (b : BusData) :
    let s1 := handleBusClick (idleState p0) b
    let s2 := handleInfoPanelClose s1
    let s3 := flightMoveend s2
    s3.selectedBus = none ∧
    s3.showInfoPanel = false ∧
    s3.flyTarget = none ∧
    s3.interactions = allInteractionsOff ∧
    s3.navControl = false := by
  refine ⟨rfl, rfl, rfl, rfl, rfl⟩

/-- C3 counterexample: from Idle at pose `(0,0,0,0,0)`, selecting bus 1,
letting the focus flight advance the camera to the in-flight pose
`(1,1,10,30,5)`, and then selecting bus 2 leaves `previousMapPosition`
equal to the in-flight pose — not the pose captured at the first
selection, which it therefore does not equal. -/
theorem second_selection_saved_pose_cex :
    (handleBusClick (animationFrame (handleBusClick
        (idleState ⟨0, 0, 0, 0, 0⟩) ⟨1, 5, 5, some 90⟩) ⟨1, 1, 10, 30, 5⟩)
        ⟨2, 6, 6, some 180⟩).previousMapPosition = some ⟨1, 1, 10, 30, 5⟩ ∧
    (handleBusClick (animationFrame (handleBusClick
        (idleState ⟨0, 0, 0, 0, 0⟩) ⟨1, 5, 5, some 90⟩) ⟨1, 1, 10, 30, 5⟩)
        ⟨2, 6, 6, some 180⟩).previousMapPosition ≠ some ⟨0, 0, 0, 0, 0⟩ := by
  refine ⟨rfl, ?_⟩
  intro h
  rw [show (handleBusClick (animationFrame (handleBusClick
      (idleState ⟨0, 0, 0, 0, 0⟩) ⟨1, 5, 5, some 90⟩) ⟨1, 1, 10, 30, 5⟩)
      ⟨2, 6, 6, some 180⟩).previousMapPosition
    = some (⟨1, 1, 10, 30, 5⟩ : CameraPose) from rfl] at h
  have h2 := congrArg (fun o => (Option.getD o ⟨0, 0, 0, 0, 0⟩).lng) h
  norm_num at h2

/-- C3 amended: when a second bus is selected while the first selection's
focus flight is still in flight, exactly one saved pose remains active
(`previousMapPosition` is a single optional field, overwritten atomically),
and it equals the camera pose at the moment of the second selection — the
in-flight pose — while the second bus becomes the selected entity. -/
theorem second_selection_saves_inflight_pose (p0 pMid : CameraPose) (b1 b2 : BusData) :
    let s1 := handleBusClick (idleState p0) b1
    let s2 := animationFrame s1 pMid
    let s3 := handleBusClick s2 b2
    s2.camera = pMid ∧
    s3.previousMapPosition = some s2.camera ∧
    s3.selectedBus = some b2 := by
  refine ⟨rfl, rfl, rfl⟩

/-- The follow-mode camera snap in `loadBusData` of `MapView`:
`setCenter([bus.Longitude, bus.Latitude])` and
`setBearing(bus.Heading || 0)` applied to the live camera. -/
def followCameraUpdate (cam : CameraPose) (bus : BusData) : CameraPose :=
  { cam with lng := bus.Longitude, lat := bus.Latitude,
             bearing := jsOrZero bus.Heading }

/-- C7 (code evaluated at the failing input): for a telemetry record whose
heading is missing, the follow-mode bearing snap and the focus-flight
bearing do substitute the neutral value 0 (`bus.Heading || 0`), as does
the earlier `Bus3DModel.tsx` rotation (`(bus.Heading || 0) * (π/180)`),
but the current `getModelTransform` rotation computes
`((bus.Heading + 25) * π) / 180` with no default, so its `rotateZ` is the
non-numeric `NaN` (modelled as `none`) instead of the claimed
`(0 + 25) * π / 180`. -/
theorem missing_heading_transform_nan
    (fromLngLat : ℝ → ℝ → ℝ → ℝ × ℝ × ℝ) (meterUnits : ℝ)
    (cam : CameraPose) (zoom : ℝ) :
    (followCameraUpdate cam ⟨7, -79.979146, 42.117963, none⟩).bearing = 0 ∧
    (focusPose ⟨7, -79.979146, 42.117963, none⟩).bearing = 0 ∧
    headingRadians none = 0 ∧
    (getModelTransform fromLngLat meterUnits
        ⟨7, -79.979146, 42.117963, none⟩ zoom).rotateZ = none ∧
    (getModelTransform fromLngLat meterUnits
        ⟨7, -79.979146, 42.117963, none⟩ zoom).rotateZ
      ≠ some (((0 + 25) * Real.pi) / 180) := by
  refine ⟨rfl, rfl, ?_, rfl, by simp [getModelTransform, modelRotateZ]⟩
  simp [headingRadians, jsOrZero]

/-- `fetchBusLocations` of `src/services/busApi.ts`: returns the decoded
list on success; any fetch/decode failure is caught and yields `[]`
(after a user notification), never an exception. -/
def fetchBusLocations (response : Except String (List BusData)) : List BusData :=
  match response with
  | .ok data => data
  | .error _ => []

/-- The `buses` state update of `loadBusData` in `MapView`: `setBuses(data)`
runs only under `if (data.length > 0)`; an empty poll leaves the previous
list in place (a warning toast is shown instead). One `Bus3DModel` entity
is rendered per element of `buses`. -/
def loadBusData (buses : List BusData) (data : List BusData) : List BusData :=
  if 0 < data.length then data else buses

/-- C8 counterexample: with one bus currently rendered, a poll returning
the empty list leaves the rendered entity set unchanged (still that one
bus) rather than making it empty. -/
theorem empty_poll_keeps_entities_cex :
    loadBusData [⟨7, -79.979146, 42.117963, some 90⟩] (fetchBusLocations (.ok []))
      = [⟨7, -79.979146, 42.117963, some 90⟩] ∧
    loadBusData [⟨7, -79.979146, 42.117963, some 90⟩] (fetchBusLocations (.ok []))
      ≠ [] := by
  refine ⟨rfl, ?_⟩
  intro h
  exact List.cons_ne_nil _ _ h

/-- C8 amended: a telemetry poll returning an empty list raises no error
(`fetchBusLocations` and the update are total; failures are caught and
yield `[]`) and leaves the previously rendered entities in place, and a
subsequent poll returning exactly one vehicle results in exactly one
rendered entity. -/
theorem empty_then_single_poll (buses : List BusData) (v : BusData) :
    loadBusData buses (fetchBusLocations (.ok [])) = buses ∧
    loadBusData (loadBusData buses (fetchBusLocations (.ok [])))
        (fetchBusLocations (.ok [v])) = [v] ∧
    (loadBusData (loadBusData buses (fetchBusLocations (.ok [])))
        (fetchBusLocations (.ok [v]))).length = 1 := by
  refine ⟨rfl, rfl, rfl⟩

/-- The per-entity render-layer state of `Bus3DModel` (current variant):
whether the custom layer is on the map, the asynchronously loaded asset
(`busModel`, absent until `GLTFLoader` succeeds; `α` is the asset type),
and the console error log. -/
structure EntityRenderState (α : Type) where
  layerPresent : Bool
  busModel : Option α
  errorLog : List String

/-- The `GLTFLoader` error callback of `addModelLayer` (current variant):
`console.error('Error loading bus model:', error)` — it only appends to
the log, touching neither the layer nor the (absent) model, and throws
nothing. -/
def onModelLoadError {α : Type} (s : EntityRenderState α) (msg : String) :
    EntityRenderState α :=
  { s with errorLog := s.errorLog ++ [msg] }

/-- The per-frame `render` callback of the custom layer: `if (!busModel)
return;` — with no loaded asset it returns early and draws nothing;
otherwise it computes the current transform via `getModelTransform` and
draws. -/
noncomputable def renderFrame {α : Type} (s : EntityRenderState α)
    (fromLngLat : ℝ → ℝ → ℝ → ℝ × ℝ × ℝ) (meterUnits : ℝ)
    (bus : BusData) (zoom : ℝ) : Option ModelTransform :=
  match s.busModel with
  | none => none
  | some _ => some (getModelTransform fromLngLat meterUnits bus zoom)

/-- C9: if the asynchronous asset load fails while no asset is present, the
failure is appended to the log, the layer remains present exactly as
before and the asset stays absent, and the per-frame render returns early
drawing nothing; the handler is a total function, so no exception reaches
the layer-creation path. -/
theorem asset_load_failure_is_benign {α : Type} (s : EntityRenderState α)
    (msg : String) (fromLngLat : ℝ → ℝ → ℝ → ℝ × ℝ × ℝ) (meterUnits : ℝ)
    (bus : BusData) (zoom : ℝ) (h : s.busModel = none) :
    (onModelLoadError s msg).errorLog = s.errorLog ++ [msg] ∧
    (onModelLoadError s msg).layerPresent = s.layerPresent ∧
    (onModelLoadError s msg).busModel = none ∧
    renderFrame (onModelLoadError s msg) fromLngLat meterUnits bus zoom = none := by
  refine ⟨rfl, rfl, h, ?_⟩
  simp [renderFrame, onModelLoadError, h]

/-- C9 witness: instance at a concrete just-created entity state. -/
theorem asset_load_failure_is_benign_witness :
    (onModelLoadError (⟨true, none, []⟩ : EntityRenderState Unit)
        "Error loading bus model:").errorLog = [] ++ ["Error loading bus model:"] ∧
    (onModelLoadError (⟨true, none, []⟩ : EntityRenderState Unit)
        "Error loading bus model:").layerPresent = true ∧
    (onModelLoadError (⟨true, none, []⟩ : EntityRenderState Unit)
        "Error loading bus model:").busModel = none ∧
    renderFrame (onModelLoadError (⟨true, none, []⟩ : EntityRenderState Unit)
        "Error loading bus model:") (fun _ _ _ => (0, 0, 0)) 1
        ⟨7, -79.979146, 42.117963, some 90⟩ 18 = none :=
  asset_load_failure_is_benign (⟨true, none, []⟩ : EntityRenderState Unit)
    "Error loading bus model:" (fun _ _ _ => (0, 0, 0)) 1
    ⟨7, -79.979146, 42.117963, some 90⟩ 18 rfl
